import Mathlib

/-!
Shallow embedding of the fitnessmuse-server identity/session lifecycle and the
multi-tenant trainer invitation state machine, translated from:
  src/controllers/user.controller.ts   (token issuance, rotation, logout)
  src/middlewares/auth.middleware.ts   (verifyJWT session guard)
  src/controllers/trainer.controller.ts (inviteTrainers, acceptTrainerInvitation;
    the revision using the nested `gyms` membership array)
  src/models/user.model.ts, src/models/trainer.model.ts (persisted shapes)

Randomness (crypto.randomBytes, Math.random), wall-clock time (`new Date()`), and
notifier outcomes (sendEmail success/failure) are passed in explicitly; the
MongoDB collections become Lean lists threaded through each operation.
-/

/-- Mirror of ApiError: an HTTP status code plus a message. -/
structure ApiErr where
  status : Nat
  msg : String
deriving Repr, DecidableEq

/-! ## Signed-token primitive (jsonwebtoken)

A signed token is modelled as a record carrying its payload together with the
identity of the secret that signed it and its iat/exp claims; `jwt.verify`
checks the secret and then the expiry (jsonwebtoken rejects once the current
time reaches `exp`). Distinct issuance times yield structurally distinct
tokens, mirroring distinct JWT strings. -/

/-- Identifier of ACCESS_TOKEN_SECRET. -/
def accessTokenSecret : Nat := 0

/-- Identifier of REFRESH_TOKEN_SECRET. -/
def refreshTokenSecret : Nat := 1

/-- Access token payload per user.model.ts generateAccessToken: _id plus
denormalized email / username / fullName, signed with ACCESS_TOKEN_SECRET. -/
structure AccessJwt where
  uid : Nat
  email : String
  username : String
  fullName : String
  secret : Nat
  iat : Nat
  exp : Nat
deriving Repr, DecidableEq

/-- Refresh token payload per user.model.ts generateRefreshToken: only _id,
signed with REFRESH_TOKEN_SECRET. -/
structure RefreshJwt where
  uid : Nat
  secret : Nat
  iat : Nat
  exp : Nat
deriving Repr, DecidableEq

/-- Environment-configured token lifetimes (ACCESS_TOKEN_EXPIRY,
REFRESH_TOKEN_EXPIRY); injected, since the source reads them from process.env. -/
structure JwtEnv where
  accessExpiry : Nat
  refreshExpiry : Nat

/-- Persisted User document (user.model.ts): unique username/email, password
hash, and at most one stored refresh token. -/
structure User where
  id : Nat
  username : String
  email : String
  fullName : String
  password : String
  refreshToken : Option RefreshJwt
deriving Repr, DecidableEq

/-- State of the users collection. -/
structure AuthState where
  users : List User
deriving Repr, DecidableEq

/-- User.findById. -/
def findUserById (s : AuthState) (uid : Nat) : Option User :=
  s.users.find? (fun u => u.id == uid)

/-- Write a new refreshToken value onto the user document with the given id
(user.save after mutation, or findByIdAndUpdate with $unset when `rt = none`). -/
def storeRefreshToken (s : AuthState) (uid : Nat) (rt : Option RefreshJwt) : AuthState :=
  { s with users := s.users.map (fun u => if u.id == uid then { u with refreshToken := rt } else u) }

/-- user.generateAccessToken(): jwt.sign of id + display claims with the access
secret and the configured short TTL. -/
def generateAccessToken (env : JwtEnv) (u : User) (now : Nat) : AccessJwt :=
  { uid := u.id, email := u.email, username := u.username, fullName := u.fullName,
    secret := accessTokenSecret, iat := now, exp := now + env.accessExpiry }

/-- user.generateRefreshToken(): jwt.sign of only the id with the refresh secret
and the configured long TTL. -/
def generateRefreshToken (env : JwtEnv) (u : User) (now : Nat) : RefreshJwt :=
  { uid := u.id, secret := refreshTokenSecret, iat := now, exp := now + env.refreshExpiry }

/-- jwt.verify against REFRESH_TOKEN_SECRET: signature first, then expiry;
returns the decoded _id. -/
def jwtVerifyRefresh (t : RefreshJwt) (now : Nat) : Except String Nat :=
  if t.secret ≠ refreshTokenSecret then .error "invalid signature"
  else if t.exp ≤ now then .error "jwt expired"
  else .ok t.uid

/-- jwt.verify against ACCESS_TOKEN_SECRET: signature first, then expiry;
returns the decoded payload. -/
def jwtVerifyAccess (t : AccessJwt) (now : Nat) : Except String AccessJwt :=
  if t.secret ≠ accessTokenSecret then .error "invalid signature"
  else if t.exp ≤ now then .error "jwt expired"
  else .ok t

/-- generateAccessAndRefreshTokens (user.controller.ts): look up the user, mint
both tokens, persist the new refresh token on the user record (overwriting any
prior value), and return the pair. Its internal try/catch converts any failure
(including the user-not-found 404) into a 500 with a fixed message. -/
def generateAccessAndRefreshTokens (env : JwtEnv) (s : AuthState) (userId : Nat) (now : Nat) :
    Except ApiErr (AuthState × AccessJwt × RefreshJwt) :=
  match findUserById s userId with
  | none => .error ⟨500, "An error occurred while generating access and refresh tokens."⟩
  | some u =>
      let accessToken := generateAccessToken env u now
      let refreshToken := generateRefreshToken env u now
      .ok (storeRefreshToken s userId (some refreshToken), accessToken, refreshToken)

/-- refreshAccessToken (user.controller.ts): missing token is 401; then inside a
try/catch whose handler rethrows every error with status 401 and the original
message: verify the token cryptographically, look up the referenced user,
require the presented value to equal the stored one exactly, and on success
issue a fresh pair via generateAccessAndRefreshTokens. -/
def refreshAccessToken (env : JwtEnv) (s : AuthState) (incoming : Option RefreshJwt) (now : Nat) :
    Except ApiErr (AuthState × AccessJwt × RefreshJwt) :=
  match incoming with
  | none => .error ⟨401, "Unauthorized request: No refresh token provided."⟩
  | some t =>
    match jwtVerifyRefresh t now with
    | .error m => .error ⟨401, m⟩
    | .ok uid =>
      match findUserById s uid with
      | none => .error ⟨401, "Invalid refresh token."⟩
      | some u =>
        if u.refreshToken = some t then
          match generateAccessAndRefreshTokens env s uid now with
          | .error e => .error ⟨401, e.msg⟩
          | .ok r => .ok r
        else .error ⟨401, "Refresh token is expired or used."⟩

/-- logoutUser (user.controller.ts): requires an authenticated user id, then
findByIdAndUpdate with $unset removes only the stored refreshToken field. -/
def logoutUser (s : AuthState) (userId : Option Nat) : Except ApiErr AuthState :=
  match userId with
  | none => .error ⟨401, "User is not authenticated."⟩
  | some uid => .ok (storeRefreshToken s uid none)

/-- Projection select("-password -refreshToken") of a user document. -/
structure PublicUser where
  id : Nat
  username : String
  email : String
  fullName : String
deriving Repr, DecidableEq

/-- Drop password and refreshToken from a user document. -/
def sanitizeUser (u : User) : PublicUser :=
  { id := u.id, username := u.username, email := u.email, fullName := u.fullName }

/-- verifyJWT (auth.middleware.ts): take the bearer access token, verify it
against the access secret, look up the decoded id, and fail 401 unless the
backing user record still exists; on success attach the sanitized live user. -/
def verifyJWT (s : AuthState) (token : Option AccessJwt) (now : Nat) : Except ApiErr PublicUser :=
  match token with
  | none => .error ⟨401, "Unauthorized request: No token provided."⟩
  | some t =>
    match jwtVerifyAccess t now with
    | .error m => .error ⟨401, m⟩
    | .ok d =>
      match findUserById s d.uid with
      | none => .error ⟨401, "Unauthorized request: Invalid token."⟩
      | some u => .ok (sanitizeUser u)

/-! ## Invitation Manager (trainer.controller.ts, nested `gyms` schema) -/

/-- Invitation token subdocument: opaque value plus absolute expiry. -/
structure InvitationToken where
  token : String
  expiresAt : Nat
deriving Repr, DecidableEq

/-- Membership subdocument of the trainer schema: per-gym id, denormalized
name, MPIN, acceptance flag, and invitation tokens. -/
structure GymMembership where
  gymId : Nat
  gymName : String
  mpin : String
  isInvitationAccepted : Bool
  invitationTokens : List InvitationToken
deriving Repr, DecidableEq

/-- Trainer document: unique email owning a list of memberships. -/
structure Trainer where
  id : Nat
  email : String
  gyms : List GymMembership
deriving Repr, DecidableEq

/-- Gym document (only the fields the invitation flow reads). -/
structure Gym where
  id : Nat
  name : String
deriving Repr, DecidableEq

/-- State of the trainers and gyms collections; nextId supplies fresh _id
values for upsert-created trainer documents. -/
structure TrainerState where
  trainers : List Trainer
  gyms : List Gym
  nextId : Nat
deriving Repr, DecidableEq

/-- Oracles for the effects inside the invite loop: `gen n` is the n-th
generated (MPIN, invitation token) pair of the request, and `emailOk a` tells
whether sendEmail to address `a` succeeds. -/
structure InviteEnv where
  gen : Nat → String × String
  emailOk : String → Bool

/-- expiresAt = now + 3 days (expiresAt.setDate(getDate() + 3)), in seconds. -/
def TOKEN_TTL : Nat := 3 * 86400

/-- JS falsy test `!email?.trim()`: true exactly when the address is empty or
consists solely of whitespace (trim() of such a string is the empty string). -/
def isBlankEmail (e : String) : Bool := e.data.all (fun c => c.isWhitespace)

/-- Entry of the failedInvitations list. -/
structure InviteFailure where
  email : String
  error : String
deriving Repr, DecidableEq

/-- Invitation token after select("-gyms.invitationTokens.token"): the token
value is excluded, the expiry survives. -/
structure SanitizedInvitationToken where
  expiresAt : Nat
deriving Repr, DecidableEq

/-- Membership as it appears after the projection
select("-mpin -gyms.invitationTokens.token"): "-mpin" names a top-level path
that does not exist on this nested schema (the MPIN lives at gyms.mpin), so
the per-membership mpin field survives the projection; only the nested
invitation token values are excluded. -/
structure SanitizedMembership where
  gymId : Nat
  gymName : String
  mpin : String
  isInvitationAccepted : Bool
  invitationTokens : List SanitizedInvitationToken
deriving Repr, DecidableEq

/-- Trainer document after the projection select("-mpin -gyms.invitationTokens.token"). -/
structure SanitizedTrainer where
  id : Nat
  email : String
  gyms : List SanitizedMembership
deriving Repr, DecidableEq

/-- Apply select("-mpin -gyms.invitationTokens.token") to a trainer document. -/
def sanitizeTrainer (t : Trainer) : SanitizedTrainer :=
  { id := t.id, email := t.email,
    gyms := t.gyms.map (fun g =>
      { gymId := g.gymId, gymName := g.gymName, mpin := g.mpin,
        isInvitationAccepted := g.isInvitationAccepted,
        invitationTokens := g.invitationTokens.map (fun it => ⟨it.expiresAt⟩) }) }

/-- Trainer.findOne({ email, "gyms.gymId": gymId }): first trainer with that
email holding some membership for that gym. -/
def findTrainerWithMembership (ts : List Trainer) (e : String) (gid : Nat) : Option Trainer :=
  ts.find? (fun t => t.email == e && t.gyms.any (fun g => g.gymId == gid))

/-- $push of a membership onto the first document matching { email }; `none`
when no document matches. Returns the updated collection and (new: true) the
updated document. -/
def pushMembership (e : String) (m : GymMembership) :
    List Trainer → Option (List Trainer × Trainer)
  | [] => none
  | t :: ts =>
    if t.email == e then
      let t' := { t with gyms := t.gyms ++ [m] }
      some (t' :: ts, t')
    else
      (pushMembership e m ts).map (fun p => (t :: p.1, p.2))

/-- Trainer.findOneAndUpdate({ email }, { $push: { gyms: m } }, { upsert, new }):
append the membership to the existing trainer document, or insert a fresh
document holding just that membership. -/
def upsertMembership (s : TrainerState) (e : String) (m : GymMembership) :
    TrainerState × Trainer :=
  match pushMembership e m s.trainers with
  | some (ts, t) => ({ s with trainers := ts }, t)
  | none =>
      let t : Trainer := { id := s.nextId, email := e, gyms := [m] }
      ({ s with trainers := s.trainers ++ [t], nextId := s.nextId + 1 }, t)

/-- Body of the per-email loop of inviteTrainers: reject blank addresses,
reject addresses already holding a membership for this gym, otherwise generate
the MPIN/token pair, atomically upsert the membership, and classify the address
by the notifier outcome (a send failure keeps the persisted membership).
`acc` threads the collection state and the generation counter. -/
def inviteStep (env : InviteEnv) (now : Nat) (gid : Nat) (gymName : String)
    (acc : TrainerState × Nat) (e : String) :
    (TrainerState × Nat) × List SanitizedTrainer × List InviteFailure :=
  let s := acc.1
  let ctr := acc.2
  if isBlankEmail e then ((s, ctr), [], [⟨e, "Invalid email format"⟩])
  else if (findTrainerWithMembership s.trainers e gid).isSome then
    ((s, ctr), [], [⟨e, "Trainer already invited to this gym"⟩])
  else
    let mpin := (env.gen ctr).1
    let invitationToken := (env.gen ctr).2
    let m : GymMembership :=
      { gymId := gid, gymName := gymName, mpin := mpin, isInvitationAccepted := false,
        invitationTokens := [⟨invitationToken, now + TOKEN_TTL⟩] }
    let r := upsertMembership s e m
    if env.emailOk e then
      ((r.1, ctr + 1), [sanitizeTrainer r.2], [])
    else
      ((r.1, ctr + 1), [], [⟨e, "Failed to send invitation email"⟩])

/-- The for-loop of inviteTrainers over the submitted addresses, accumulating
invitedTrainers and failedInvitations in order. -/
def inviteLoop (env : InviteEnv) (now : Nat) (gid : Nat) (gymName : String) :
    List String → (TrainerState × Nat) →
    (TrainerState × Nat) × List SanitizedTrainer × List InviteFailure
  | [], acc => (acc, [], [])
  | e :: rest, acc =>
    let r1 := inviteStep env now gid gymName acc e
    let r2 := inviteLoop env now gid gymName rest r1.1
    (r2.1, r1.2.1 ++ r2.2.1, r1.2.2 ++ r2.2.2)

/-- inviteTrainers (trainer.controller.ts): an empty email list is a 400, a
missing gym a 404; otherwise every address is processed independently and the
batch result carries both lists. -/
def inviteTrainers (env : InviteEnv) (now : Nat) (emails : List String) (gid : Nat)
    (s : TrainerState) :
    Except ApiErr (TrainerState × List SanitizedTrainer × List InviteFailure) :=
  if emails = [] then .error ⟨400, "A list of emails is required"⟩
  else
    match s.gyms.find? (fun g => g.id == gid) with
    | none => .error ⟨404, "Gym not found"⟩
    | some gym =>
      let r := inviteLoop env now gid gym.name emails (s, 0)
      .ok (r.1.1, r.2.1, r.2.2)

/-- Whether a membership holds an invitation token with the given value. -/
def membershipHasToken (tok : String) (g : GymMembership) : Bool :=
  g.invitationTokens.any (fun it => it.token == tok)

/-- Trainer.findOne({ "gyms.invitationTokens.token": tok,
"gyms.invitationTokens.expiresAt": { $gt: now }, "gyms.isInvitationAccepted":
false }) match predicate. The three array-path conditions are independent (the
query uses no $elemMatch), so each may be witnessed by a different membership
or token of the same trainer document. -/
def trainerMatchesAcceptQuery (tok : String) (now : Nat) (t : Trainer) : Bool :=
  t.gyms.any (fun g => membershipHasToken tok g) &&
  t.gyms.any (fun g => g.invitationTokens.any (fun it => now < it.expiresAt)) &&
  t.gyms.any (fun g => !g.isInvitationAccepted)

/-- Update at gymIndex = findIndex of the first membership holding the token:
set its acceptance flag and filter out the entries carrying the presented
token value; `none` mirrors the findIndex = -1 branch. -/
def acceptGyms (tok : String) : List GymMembership → Option (List GymMembership)
  | [] => none
  | g :: gs =>
    if membershipHasToken tok g then
      some ({ g with
                isInvitationAccepted := true,
                invitationTokens := g.invitationTokens.filter (fun it => it.token != tok) } :: gs)
    else (acceptGyms tok gs).map (fun gs' => g :: gs')

/-- Walk the trainers collection: at the first document matching the findOne
query, perform the acceptance update in place (trainer.save()); the inner
`none` is the unmatched-gymIndex branch. -/
def acceptFind (tok : String) (now : Nat) :
    List Trainer → Option (List Trainer × Option Trainer)
  | [] => none
  | t :: ts =>
    if trainerMatchesAcceptQuery tok now t then
      match acceptGyms tok t.gyms with
      | none => some (t :: ts, none)
      | some gs =>
        let t' := { t with gyms := gs }
        some (t' :: ts, some t')
    else (acceptFind tok now ts).map (fun p => (t :: p.1, p.2))

/-- acceptTrainerInvitation (trainer.controller.ts): a missing/empty token is a
400; no trainer matching the three-condition query is the uniform 400 "Invalid
or expired invitation link."; otherwise flip the matched membership, drop the
presented token value from it, persist, and return the sanitized document. -/
def acceptTrainerInvitation (s : TrainerState) (tok : String) (now : Nat) :
    Except ApiErr (TrainerState × SanitizedTrainer) :=
  if tok = "" then .error ⟨400, "Token is required"⟩
  else
    match acceptFind tok now s.trainers with
    | none => .error ⟨400, "Invalid or expired invitation link."⟩
    | some (_, none) => .error ⟨400, "Gym not found for this invitation."⟩
    | some (ts, some t') => .ok ({ s with trainers := ts }, sanitizeTrainer t')

/-- Result success test for the embedded controllers. -/
def exceptIsOk : Except ApiErr α → Bool
  | .ok _ => true
  | .error _ => false


/-- Total number of memberships for the (trainer email, gym) pair across the
whole trainer collection. -/
def countMemberships (s : TrainerState) (e : String) (gid : Nat) : Nat :=
  (s.trainers.map (fun t =>
    if t.email = e then (t.gyms.filter (fun g => g.gymId == gid)).length else 0)).sum

/-! ## Concrete instances used by claim witnesses and counterexamples -/

/-- State exhibiting the cross-membership matching of the acceptance query: one
trainer invited to gym 1 (token expired at 5) and to gym 2 (token fresh until
100), neither membership accepted. Reachable by two invites three days apart. -/
def c2State : TrainerState :=
  { trainers := [
      { id := 0, email := "t@x.com",
        gyms := [
          { gymId := 1, gymName := "G1", mpin := "111111", isInvitationAccepted := false,
            invitationTokens := [⟨"tokExpired", 5⟩] },
          { gymId := 2, gymName := "G2", mpin := "222222", isInvitationAccepted := false,
            invitationTokens := [⟨"tokFresh", 100⟩] } ] } ],
    gyms := [⟨1, "G1"⟩, ⟨2, "G2"⟩], nextId := 1 }

/-- Oracle for the C4 run: one generated (MPIN, token) pair, notifier succeeds. -/
def c4Env : InviteEnv := { gen := fun _ => ("654321", "tok0"), emailOk := fun _ => true }

/-- Initial state for the C4 run: empty trainer collection, one gym. -/
def c4State : TrainerState := { trainers := [], gyms := [⟨1, "T"⟩], nextId := 0 }

/-- Oracle for the C5 scenario: distinct generated pairs, notifier succeeds. -/
def c5Env : InviteEnv :=
  { gen := fun n =>
      if n = 0 then ("111111", "tokA")
      else if n = 1 then ("222222", "tokB")
      else ("999999", "tokZ"),
    emailOk := fun _ => true }

/-- Initial state for the C5 scenario: tenant T exists, no trainers. -/
def c5State : TrainerState := { trainers := [], gyms := [⟨1, "T"⟩], nextId := 0 }

/-- Concrete token lifetimes for the auth witnesses. -/
def demoJwtEnv : JwtEnv := { accessExpiry := 100, refreshExpiry := 1000 }

/-- Demo user for the C8 witness. -/
def demoUser : User :=
  { id := 1, username := "sam", email := "sam@x.com", fullName := "Sam S",
    password := "hash", refreshToken := none }

/-- Users collection for the C8 witness. -/
def demoAuthState : AuthState := { users := [demoUser] }

/-- Valid unexpired access token for the C8 witness. -/
def demoAccess : AccessJwt :=
  { uid := 1, email := "sam@x.com", username := "sam", fullName := "Sam S",
    secret := accessTokenSecret, iat := 0, exp := 100 }

/-- Stored refresh token of the C1 witness user, issued at 0. -/
def c1R : RefreshJwt := { uid := 3, secret := refreshTokenSecret, iat := 0, exp := 1000 }

/-- C1 witness user, currently holding c1R. -/
def c1User : User :=
  { id := 3, username := "kim", email := "kim@x.com", fullName := "Kim K",
    password := "h", refreshToken := some c1R }

/-- Users collection for the C1 witness. -/
def c1AuthState : AuthState := { users := [c1User] }

/-- Stored refresh token of the C10 witness user. -/
def c10R : RefreshJwt := { uid := 2, secret := refreshTokenSecret, iat := 0, exp := 1000 }

/-- C10 witness user, logged in (refresh token stored). -/
def c10User : User :=
  { id := 2, username := "lee", email := "lee@x.com", fullName := "Lee L",
    password := "h", refreshToken := some c10R }

/-- Users collection for the C10 witness. -/
def c10AuthState : AuthState := { users := [c10User] }

/-- Pre-logout access token of the C10 witness user. -/
def c10Access : AccessJwt :=
  { uid := 2, email := "lee@x.com", username := "lee", fullName := "Lee L",
    secret := accessTokenSecret, iat := 0, exp := 100 }

/-- Pre-acceptance state for the C3 witness: one trainer with one membership
holding one invitation token. -/
def c3State : TrainerState :=
  { trainers := [
      { id := 0, email := "w@x.com",
        gyms := [
          { gymId := 1, gymName := "G", mpin := "111111", isInvitationAccepted := false,
            invitationTokens := [⟨"tkC3", 100⟩] } ] } ],
    gyms := [⟨1, "G"⟩], nextId := 1 }

/-- Post-acceptance state for the C3 witness. -/
def c3PostState : TrainerState :=
  { trainers := [
      { id := 0, email := "w@x.com",
        gyms := [
          { gymId := 1, gymName := "G", mpin := "111111", isInvitationAccepted := true,
            invitationTokens := [] } ] } ],
    gyms := [⟨1, "G"⟩], nextId := 1 }

/-- Sanitized trainer returned by the C3 witness acceptance. -/
def c3PostSan : SanitizedTrainer :=
  { id := 0, email := "w@x.com",
    gyms := [
      { gymId := 1, gymName := "G", mpin := "111111", isInvitationAccepted := true,
        invitationTokens := [] } ] }

/-- Oracle for the C6 witness: notifier succeeds. -/
def c6Env : InviteEnv := { gen := fun _ => ("123456", "tokC6"), emailOk := fun _ => true }

/-- Initial state for the C6 witness: one gym, no trainers. -/
def c6State : TrainerState := { trainers := [], gyms := [⟨7, "GymC6"⟩], nextId := 0 }

/-- Oracle for the C7 witness: the notifier fails for every address. -/
def c7Env : InviteEnv := { gen := fun _ => ("123456", "tokC7"), emailOk := fun _ => false }

/-- Initial state for the C7 witness: one gym, no trainers. -/
def c7State : TrainerState := { trainers := [], gyms := [⟨9, "GymC7"⟩], nextId := 0 }

/-! ## Helper lemmas -/

theorem find_map_refreshUpdate (l : List User) (uid : Nat) (rt : Option RefreshJwt) :
    (l.map (fun u => if u.id == uid then { u with refreshToken := rt } else u)).find?
        (fun u => u.id == uid) =
      (l.find? (fun u => u.id == uid)).map (fun u => { u with refreshToken := rt }) := by
  induction l with
  | nil => rfl
  | cons x xs ih =>
    simp only [List.map_cons, List.find?_cons]
    cases hx : (x.id == uid) with
    | true => simp [hx]
    | false =>
      simp [hx, -List.find?_map]
      simp [-List.find?_map] at ih
      exact ih

/-- findUserById after storeRefreshToken. -/
theorem findUserById_storeRefreshToken (s : AuthState) (uid : Nat) (rt : Option RefreshJwt) :
    findUserById (storeRefreshToken s uid rt) uid =
      (findUserById s uid).map (fun u => { u with refreshToken := rt }) :=
  find_map_refreshUpdate s.users uid rt

/-- jwtVerifyRefresh only ever decodes the id carried by the token. -/
theorem jwtVerifyRefresh_ok_uid {t : RefreshJwt} {now u : Nat}
    (h : jwtVerifyRefresh t now = .ok u) : u = t.uid := by
  unfold jwtVerifyRefresh at h
  split_ifs at h
  all_goals simp_all

/-- C8: for an access token with a valid signature and unexpired TTL, verifyJWT
fails with Unauthorized (401) when the principal record referenced by the
decoded id no longer exists, and succeeds attaching the live (sanitized)
principal exactly when it does exist. -/
theorem c8_verifyJWT_requires_live_principal (s : AuthState) (t : AccessJwt) (now : Nat)
    (hsig : t.secret = accessTokenSecret) (hexp : now < t.exp) :
    (findUserById s t.uid = none →
       verifyJWT s (some t) now = .error ⟨401, "Unauthorized request: Invalid token."⟩) ∧
    ∀ u, findUserById s t.uid = some u → verifyJWT s (some t) now = .ok (sanitizeUser u) := by
  have hv : jwtVerifyAccess t now = .ok t := by
    simp [jwtVerifyAccess, hsig, Nat.not_le.mpr hexp]
  constructor
  · intro h
    simp [verifyJWT, hv, h]
  · intro u h
    simp [verifyJWT, hv, h]

/-- C8 witness: in the demo state the principal exists, so the guard succeeds
and attaches it. -/
theorem c8_witness :
    demoAccess.secret = accessTokenSecret ∧ (10 : Nat) < demoAccess.exp ∧
    findUserById demoAuthState demoAccess.uid = some demoUser ∧
    verifyJWT demoAuthState (some demoAccess) 10 = .ok (sanitizeUser demoUser) :=
  ⟨rfl, by decide, rfl,
    (c8_verifyJWT_requires_live_principal demoAuthState demoAccess 10 rfl (by decide)).2
      demoUser rfl⟩

/-- C1: a successful rotation that presented R stores a freshly issued refresh
token on the user record; provided that fresh token differs from R, the stored
value no longer equals R, and any later rotation call presenting R fails with
status 401. -/
theorem c1_rotation_invalidates_presented_token (env : JwtEnv) (s s' : AuthState)
    (R : RefreshJwt) (atk : AccessJwt) (rtk : RefreshJwt) (now now2 : Nat)
    (h : refreshAccessToken env s (some R) now = .ok (s', atk, rtk))
    (hfresh : rtk ≠ R) :
    (∃ u', findUserById s' R.uid = some u' ∧ u'.refreshToken = some rtk) ∧
    ∃ e, refreshAccessToken env s' (some R) now2 = .error e ∧ e.status = 401 := by
  simp only [refreshAccessToken] at h
  cases hv : jwtVerifyRefresh R now with
  | error m => simp [hv] at h
  | ok uid =>
    have huid : uid = R.uid := jwtVerifyRefresh_ok_uid hv
    subst huid
    simp only [hv] at h
    cases hu : findUserById s R.uid with
    | none => simp [hu] at h
    | some u =>
      simp only [hu] at h
      by_cases hstored : u.refreshToken = some R
      · rw [if_pos hstored] at h
        simp only [generateAccessAndRefreshTokens, hu] at h
        simp only [Except.ok.injEq, Prod.mk.injEq] at h
        obtain ⟨hs', _, hrtk⟩ := h
        have hfind : findUserById s' R.uid =
            some { u with refreshToken := some rtk } := by
          rw [← hs', ← hrtk]
          rw [findUserById_storeRefreshToken, hu]
          rfl
        refine ⟨⟨_, hfind, rfl⟩, ?_⟩
        cases hv2 : jwtVerifyRefresh R now2 with
        | error m =>
          exact ⟨⟨401, m⟩, by simp [refreshAccessToken, hv2], rfl⟩
        | ok uid2 =>
          have huid2 : uid2 = R.uid := jwtVerifyRefresh_ok_uid hv2
          subst huid2
          refine ⟨⟨401, "Refresh token is expired or used."⟩, ?_, rfl⟩
          have hne : ({ u with refreshToken := some rtk } : User).refreshToken ≠ some R := by
            simp [hfresh]
          simp [refreshAccessToken, hv2, hfind, hne]
      · rw [if_neg hstored] at h
        simp at h

/-- C1 witness: rotating the stored token at time 5 succeeds and stores the
fresh token; presenting the old value again at time 7 is rejected with 401. -/
theorem c1_witness :
    refreshAccessToken demoJwtEnv c1AuthState (some c1R) 5 =
      .ok (storeRefreshToken c1AuthState 3 (some (generateRefreshToken demoJwtEnv c1User 5)),
           generateAccessToken demoJwtEnv c1User 5,
           generateRefreshToken demoJwtEnv c1User 5) ∧
    generateRefreshToken demoJwtEnv c1User 5 ≠ c1R ∧
    ((∃ u', findUserById (storeRefreshToken c1AuthState 3
          (some (generateRefreshToken demoJwtEnv c1User 5))) c1R.uid = some u' ∧
        u'.refreshToken = some (generateRefreshToken demoJwtEnv c1User 5)) ∧
      ∃ e, refreshAccessToken demoJwtEnv (storeRefreshToken c1AuthState 3
          (some (generateRefreshToken demoJwtEnv c1User 5))) (some c1R) 7 = .error e ∧
        e.status = 401) :=
  ⟨rfl, by decide,
    c1_rotation_invalidates_presented_token demoJwtEnv c1AuthState _ c1R _ _ 5 7 rfl (by decide)⟩

/-- C10: logout only unsets the stored refresh token, so an access token issued
before logout whose TTL has not elapsed is still accepted by verifyJWT (which
checks only signature, expiry, and that the user record exists), while a
rotation presenting the pre-logout refresh token fails with 401. -/
theorem c10_logout_keeps_unexpired_access (env : JwtEnv) (s s' : AuthState) (uid : Nat)
    (u : User) (atk : AccessJwt) (rtk : RefreshJwt) (now now2 : Nat)
    (hu : findUserById s uid = some u)
    (hstored : u.refreshToken = some rtk)
    (hlogout : logoutUser s (some uid) = .ok s')
    (ha_uid : atk.uid = uid) (ha_sig : atk.secret = accessTokenSecret) (ha_exp : now < atk.exp)
    (hr_uid : rtk.uid = uid) :
    verifyJWT s' (some atk) now = .ok (sanitizeUser u) ∧
    ∃ e, refreshAccessToken env s' (some rtk) now2 = .error e ∧ e.status = 401 := by
  have hs' : s' = storeRefreshToken s uid none := by
    simp only [logoutUser, Except.ok.injEq] at hlogout
    exact hlogout.symm
  subst hs'
  have hfind : findUserById (storeRefreshToken s uid none) uid =
      some { u with refreshToken := none } := by
    rw [findUserById_storeRefreshToken, hu]
    rfl
  constructor
  · have hv : jwtVerifyAccess atk now = .ok atk := by
      simp [jwtVerifyAccess, ha_sig, Nat.not_le.mpr ha_exp]
    have : sanitizeUser { u with refreshToken := none } = sanitizeUser u := rfl
    simp [verifyJWT, hv, ha_uid, hfind, this]
  · cases hv2 : jwtVerifyRefresh rtk now2 with
    | error m => exact ⟨⟨401, m⟩, by simp [refreshAccessToken, hv2], rfl⟩
    | ok uid2 =>
      have huid2 : uid2 = rtk.uid := jwtVerifyRefresh_ok_uid hv2
      subst huid2
      refine ⟨⟨401, "Refresh token is expired or used."⟩, ?_, rfl⟩
      have hne : ({ u with refreshToken := none } : User).refreshToken ≠ some rtk := by
        simp
      simp [refreshAccessToken, hv2, hr_uid, hfind, hne]

/-- C10 witness: after the demo user logs out, the unexpired pre-logout access
token still passes the guard while the pre-logout refresh token is rejected. -/
theorem c10_witness :
    findUserById c10AuthState 2 = some c10User ∧
    c10User.refreshToken = some c10R ∧
    logoutUser c10AuthState (some 2) = .ok (storeRefreshToken c10AuthState 2 none) ∧
    verifyJWT (storeRefreshToken c10AuthState 2 none) (some c10Access) 10 =
      .ok (sanitizeUser c10User) ∧
    ∃ e, refreshAccessToken demoJwtEnv (storeRefreshToken c10AuthState 2 none)
        (some c10R) 10 = .error e ∧ e.status = 401 :=
  ⟨rfl, rfl, rfl,
    (c10_logout_keeps_unexpired_access demoJwtEnv c10AuthState _ 2 c10User c10Access c10R 10 10
        rfl rfl rfl rfl rfl (by decide) rfl).1,
    (c10_logout_keeps_unexpired_access demoJwtEnv c10AuthState _ 2 c10User c10Access c10R 10 10
        rfl rfl rfl rfl rfl (by decide) rfl).2⟩

/-- C2: refuted on the code. Every invitation token named "tokExpired" in the
state has expiresAt ≤ now = 10, yet acceptTrainerInvitation presented with
"tokExpired" succeeds: the findOne conditions are matched by different array
elements (the fresh token of gym 2, the unaccepted flag of either gym), and the
expired token of gym 1 is then consumed. The claim requires one and the same
membership to satisfy all three conditions, failing uniformly otherwise. -/
theorem c2_expired_token_accepted :
    (∀ t ∈ c2State.trainers, ∀ g ∈ t.gyms, ∀ it ∈ g.invitationTokens,
        it.token = "tokExpired" → it.expiresAt ≤ 10) ∧
    exceptIsOk (acceptTrainerInvitation c2State "tokExpired" 10) = true := by
  decide

/-- C4: refuted on the code. The single entry appended to the success list
still carries the generated MPIN "654321" inside its membership: the projection
select("-mpin -gyms.invitationTokens.token") excludes a top-level mpin path the
nested schema does not have, so gyms.mpin survives (only the token values are
stripped, as the SanitizedMembership shape records). -/
theorem c4_success_entry_contains_mpin :
    (inviteTrainers c4Env 0 ["a@x.com"] 1 c4State).toOption.map
        (fun r => r.2.1.map (fun st => st.gyms.map (fun g => g.mpin))) =
      some [["654321"]] := by
  decide

/-- C5 counterexample: the scenario does not produce 1 success and 2 failures.
Validation rejects only blank addresses, so "bad" passes the trim check and is
invited; the code yields 2 successes and 1 failure. -/
theorem c5_counterexample :
    ¬ ((inviteTrainers c5Env 0 ["a@x.com", "bad", "a@x.com"] 1 c5State).toOption.map
          (fun r => (r.2.1.length, r.2.2.length)) = some (1, 2)) := by
  decide

/-- C5 amended: the batch returns 2 successes (the first "a@x.com" and "bad",
since only empty or whitespace addresses are rejected as malformed) and exactly
1 failure, the second "a@x.com" rejected as a duplicate of the first. -/
theorem c5_amended_two_successes_one_failure :
    (inviteTrainers c5Env 0 ["a@x.com", "bad", "a@x.com"] 1 c5State).toOption.map
        (fun r => (r.2.1.map (fun st => st.email), r.2.2)) =
      some (["a@x.com", "bad"], [⟨"a@x.com", "Trainer already invited to this gym"⟩]) := by
  decide

/-- Structure of a successful acceptGyms: the update happens at the first
membership holding the presented token, and only there. -/
theorem acceptGyms_some (tok : String) (gs gs' : List GymMembership)
    (h : acceptGyms tok gs = some gs') :
    ∃ gpre g gpost,
      gs = gpre ++ g :: gpost ∧
      membershipHasToken tok g = true ∧
      gs' = gpre ++ { g with
                        isInvitationAccepted := true,
                        invitationTokens :=
                          g.invitationTokens.filter (fun it => it.token != tok) } :: gpost := by
  induction gs generalizing gs' with
  | nil => simp [acceptGyms] at h
  | cons g rest ih =>
    by_cases hg : membershipHasToken tok g = true
    · rw [acceptGyms, if_pos hg] at h
      refine ⟨[], g, rest, by simp, hg, ?_⟩
      simpa using h.symm
    · rw [acceptGyms, if_neg hg] at h
      obtain ⟨gs'', hgs'', rfl⟩ := Option.map_eq_some'.mp h
      obtain ⟨gpre, g0, gpost, hdec, htok, hupd⟩ := ih gs'' hgs''
      exact ⟨g :: gpre, g0, gpost, by simp [hdec], htok, by simp [hupd]⟩

/-- With at most one stored invitation token, filtering out the presented token
empties the membership's token list whenever the membership holds it. -/
theorem single_token_filter_nil (l : List InvitationToken) (tok : String)
    (hlen : l.length ≤ 1) (hmem : l.any (fun it => it.token == tok) = true) :
    l.filter (fun it => it.token != tok) = [] := by
  match l with
  | [] => simp at hmem
  | [it] =>
    simp only [List.any_cons, List.any_nil, Bool.or_false] at hmem
    have hne : (it.token != tok) = false := by simp [bne, hmem]
    simp [List.filter, hne]
  | it1 :: it2 :: restl => simp at hlen

/-- Structure of a successful acceptFind: the first trainer matching the query
is updated via acceptGyms, the rest of the collection is untouched. -/
theorem acceptFind_some (tok : String) (now : Nat) (l l' : List Trainer) (t' : Trainer)
    (h : acceptFind tok now l = some (l', some t')) :
    ∃ pre t post gs,
      l = pre ++ t :: post ∧
      trainerMatchesAcceptQuery tok now t = true ∧
      acceptGyms tok t.gyms = some gs ∧
      t' = { t with gyms := gs } ∧
      l' = pre ++ t' :: post := by
  induction l generalizing l' with
  | nil => simp [acceptFind] at h
  | cons t rest ih =>
    by_cases hm : trainerMatchesAcceptQuery tok now t = true
    · rw [acceptFind, if_pos hm] at h
      cases hg : acceptGyms tok t.gyms with
      | none => rw [hg] at h; simp at h
      | some gs =>
        rw [hg] at h
        simp only [Option.some.injEq, Prod.mk.injEq] at h
        obtain ⟨hl', ht'⟩ := h
        exact ⟨[], t, rest, gs, by simp, hm, hg, ht'.symm, by simp [hl'.symm, ht']⟩
    · rw [acceptFind, if_neg hm] at h
      obtain ⟨p, hp, hpe⟩ := Option.map_eq_some'.mp h
      simp only [Prod.mk.injEq] at hpe
      obtain ⟨hl', hp2⟩ := hpe
      obtain ⟨pre, t0, post, gs, hdec, hq, hg, ht', hrest⟩ := ih p.1 (by
        have : p = (p.1, some t') := by
          cases p with
          | mk a b => simp_all
        rw [← this]; exact hp)
      exact ⟨t :: pre, t0, post, gs, by simp [hdec], hq, hg, ht', by simp [hl'.symm, hrest]⟩

/-- C3: on a successful acceptTrainerInvitation in a state whose memberships
hold at most one invitation token each (the shape the invite flow creates,
since each new membership is born with exactly one token and tokens are never
added to an existing membership), the matched membership's acceptance flag
becomes true and its invitationTokens list becomes empty — every token of that
membership is removed, not merely flagged — while the rest of the collection is
untouched, so no token of that membership can be replayed. -/
theorem c3_acceptance_discards_membership_tokens (s : TrainerState) (tok : String) (now : Nat)
    (s' : TrainerState) (san : SanitizedTrainer)
    (hsingle : ∀ t ∈ s.trainers, ∀ g ∈ t.gyms, g.invitationTokens.length ≤ 1)
    (hok : acceptTrainerInvitation s tok now = .ok (s', san)) :
    ∃ pre t post gpre g gpost,
      s.trainers = pre ++ t :: post ∧
      t.gyms = gpre ++ g :: gpost ∧
      membershipHasToken tok g = true ∧
      s'.trainers = pre ++ { t with gyms := gpre ++ { g with
          isInvitationAccepted := true, invitationTokens := [] } :: gpost } :: post ∧
      san = sanitizeTrainer { t with gyms := gpre ++ { g with
          isInvitationAccepted := true, invitationTokens := [] } :: gpost } := by
  by_cases htok : tok = ""
  · rw [acceptTrainerInvitation, if_pos htok] at hok
    simp at hok
  · rw [acceptTrainerInvitation, if_neg htok] at hok
    cases haf : acceptFind tok now s.trainers with
    | none => rw [haf] at hok; simp at hok
    | some p =>
      rw [haf] at hok
      obtain ⟨ts, ot⟩ := p
      cases ot with
      | none => simp at hok
      | some t' =>
        simp only [Except.ok.injEq, Prod.mk.injEq] at hok
        obtain ⟨hs', hsan⟩ := hok
        have hstr : s'.trainers = ts := by rw [← hs']
        obtain ⟨pre, t, post, gs, hdec, hq, hg, ht', hts⟩ :=
          acceptFind_some tok now s.trainers ts t' haf
        obtain ⟨gpre, g, gpost, hgdec, hgtok, hgs⟩ := acceptGyms_some tok t.gyms gs hg
        have hmem_t : t ∈ s.trainers := by
          rw [hdec]; exact List.mem_append_right _ (List.mem_cons_self _ _)
        have hmem_g : g ∈ t.gyms := by
          rw [hgdec]; exact List.mem_append_right _ (List.mem_cons_self _ _)
        have hfil : g.invitationTokens.filter (fun it => it.token != tok) = [] :=
          single_token_filter_nil _ tok (hsingle t hmem_t g hmem_g) hgtok
        rw [hfil] at hgs
        refine ⟨pre, t, post, gpre, g, gpost, hdec, hgdec, hgtok, ?_, ?_⟩
        · rw [hstr, hts, ht', hgs]
        · rw [← hsan, ht', hgs]

/-- C3 witness: accepting the only token of the only membership empties that
membership's token list and flips its flag. -/
theorem c3_witness :
    (∀ t ∈ c3State.trainers, ∀ g ∈ t.gyms, g.invitationTokens.length ≤ 1) ∧
    acceptTrainerInvitation c3State "tkC3" 0 = .ok (c3PostState, c3PostSan) ∧
    ∃ pre t post gpre g gpost,
      c3State.trainers = pre ++ t :: post ∧
      t.gyms = gpre ++ g :: gpost ∧
      membershipHasToken "tkC3" g = true ∧
      c3PostState.trainers = pre ++ { t with gyms := gpre ++ { g with
          isInvitationAccepted := true, invitationTokens := [] } :: gpost } :: post ∧
      c3PostSan = sanitizeTrainer { t with gyms := gpre ++ { g with
          isInvitationAccepted := true, invitationTokens := [] } :: gpost } :=
  ⟨by decide, by rfl,
    c3_acceptance_discards_membership_tokens c3State "tkC3" 0 c3PostState c3PostSan
      (by decide) (by rfl)⟩

/-- Structure of a successful pushMembership: the membership is appended to the
first trainer with the given email, everything else untouched. -/
theorem pushMembership_some_decomp (e : String) (m : GymMembership)
    (l l' : List Trainer) (t' : Trainer)
    (h : pushMembership e m l = some (l', t')) :
    ∃ pre t post, l = pre ++ t :: post ∧ (∀ x ∈ pre, (x.email == e) = false) ∧
      (t.email == e) = true ∧ t' = { t with gyms := t.gyms ++ [m] } ∧
      l' = pre ++ t' :: post := by
  induction l generalizing l' with
  | nil => simp [pushMembership] at h
  | cons t rest ih =>
    by_cases ht : (t.email == e) = true
    · rw [pushMembership, if_pos ht] at h
      simp only [Option.some.injEq, Prod.mk.injEq] at h
      obtain ⟨hl', ht'⟩ := h
      exact ⟨[], t, rest, by simp, by simp, ht, ht'.symm, by simp [hl'.symm, ht']⟩
    · rw [pushMembership, if_neg ht] at h
      obtain ⟨p, hp, hpe⟩ := Option.map_eq_some'.mp h
      simp only [Prod.mk.injEq] at hpe
      obtain ⟨hl', hp2⟩ := hpe
      obtain ⟨pre, t0, post, hdec, hpre, hte, ht', hrest⟩ := ih p.1 (by
        have hpp : p = (p.1, t') := by
          cases p with
          | mk a b => simp_all
        rw [← hpp]; exact hp)
      refine ⟨t :: pre, t0, post, by simp [hdec], ?_, hte, ht', by simp [hl'.symm, hrest]⟩
      intro x hx
      rcases List.mem_cons.mp hx with hx | hx
      · subst hx; simpa using ht
      · exact hpre x hx

/-- A failed pushMembership means no trainer in the collection has the email. -/
theorem pushMembership_none (e : String) (m : GymMembership) (l : List Trainer)
    (h : pushMembership e m l = none) :
    ∀ x ∈ l, (x.email == e) = false := by
  induction l with
  | nil => simp
  | cons t rest ih =>
    by_cases ht : (t.email == e) = true
    · rw [pushMembership, if_pos ht] at h
      simp at h
    · rw [pushMembership, if_neg ht] at h
      intro x hx
      rcases List.mem_cons.mp hx with hx | hx
      · subst hx; simpa using ht
      · exact ih (by simpa using h) x hx

/-- The upsert leaves the gyms collection untouched. -/
theorem upsertMembership_gyms (s : TrainerState) (e : String) (m : GymMembership) :
    (upsertMembership s e m).1.gyms = s.gyms := by
  unfold upsertMembership
  cases h : pushMembership e m s.trainers with
  | none => rfl
  | some p => rfl

/-- After the upsert, some trainer with the given email holds the pushed
membership. -/
theorem upsertMembership_mem (s : TrainerState) (e : String) (m : GymMembership) :
    ∃ t, t ∈ (upsertMembership s e m).1.trainers ∧ (t.email == e) = true ∧
      m ∈ t.gyms ∧ (upsertMembership s e m).2 = t := by
  unfold upsertMembership
  cases h : pushMembership e m s.trainers with
  | none =>
    refine ⟨{ id := s.nextId, email := e, gyms := [m] }, ?_, by simp, by simp, rfl⟩
    simp
  | some p =>
    obtain ⟨pre, t0, post, hdec, hpre, hte, ht', hrest⟩ :=
      pushMembership_some_decomp e m s.trainers p.1 p.2 (by rw [← h])
    refine ⟨p.2, ?_, ?_, ?_, rfl⟩
    · simp only [hrest]
      exact List.mem_append_right _ (by rw [ht']; exact List.mem_cons_self _ _)
    · rw [ht']; simpa using hte
    · rw [ht']; simp

/-- C7: when sendEmail fails for an address, that address lands in the failure
list while the upserted membership (with its MPIN and invitation token)
persists in the trainer collection, and the loop continues with the remaining
addresses instead of rejecting the batch. -/
theorem c7_notifier_failure_keeps_membership (env : InviteEnv) (now : Nat)
    (s : TrainerState) (gid : Nat) (gym : Gym) (e : String) (rest : List String)
    (hgym : s.gyms.find? (fun g => g.id == gid) = some gym)
    (hblank : isBlankEmail e = false)
    (hnone : findTrainerWithMembership s.trainers e gid = none)
    (hmail : env.emailOk e = false) :
    ∃ s1 t1,
      inviteStep env now gid gym.name (s, 0) e =
        ((s1, 1), [], [⟨e, "Failed to send invitation email"⟩]) ∧
      t1 ∈ s1.trainers ∧ (t1.email == e) = true ∧
      { gymId := gid, gymName := gym.name, mpin := (env.gen 0).1,
        isInvitationAccepted := false,
        invitationTokens := [⟨(env.gen 0).2, now + TOKEN_TTL⟩] } ∈ t1.gyms ∧
      ∃ accR invR failR,
        inviteLoop env now gid gym.name rest (s1, 1) = (accR, invR, failR) ∧
        inviteTrainers env now (e :: rest) gid s =
          .ok (accR.1, invR, ⟨e, "Failed to send invitation email"⟩ :: failR) := by
  have hm := upsertMembership_mem s e
    { gymId := gid, gymName := gym.name, mpin := (env.gen 0).1,
      isInvitationAccepted := false,
      invitationTokens := [⟨(env.gen 0).2, now + TOKEN_TTL⟩] }
  obtain ⟨t1, ht1mem, ht1e, hmem, _⟩ := hm
  have hstep : inviteStep env now gid gym.name (s, 0) e =
      (((upsertMembership s e
          { gymId := gid, gymName := gym.name, mpin := (env.gen 0).1,
            isInvitationAccepted := false,
            invitationTokens := [⟨(env.gen 0).2, now + TOKEN_TTL⟩] }).1, 1),
        [], [⟨e, "Failed to send invitation email"⟩]) := by
    simp only [inviteStep, hblank, hnone, hmail, Option.isSome_none, Bool.false_eq_true,
      if_false, Nat.zero_add]
  refine ⟨_, t1, hstep, ht1mem, ht1e, hmem, ?_⟩
  refine ⟨_, _, _, rfl, ?_⟩
  have hne : (e :: rest) ≠ [] := by simp
  simp only [inviteTrainers, if_neg hne, hgym, inviteLoop, hstep, List.nil_append,
    List.singleton_append]

/-- Upserting a membership for (e, gid) into a collection with unique emails
and no existing (e, gid) membership yields exactly one membership for that
pair across the whole collection. -/
theorem countMemberships_upsert (s : TrainerState) (e : String) (gid : Nat)
    (m : GymMembership) (hm : (m.gymId == gid) = true)
    (hnone : findTrainerWithMembership s.trainers e gid = none)
    (huniq : s.trainers.Pairwise (fun a b => a.email ≠ b.email)) :
    countMemberships (upsertMembership s e m).1 e gid = 1 := by
  have hnone' : ∀ t ∈ s.trainers,
      ¬((t.email == e && t.gyms.any (fun g => g.gymId == gid)) = true) := by
    intro t ht
    exact List.find?_eq_none.mp hnone t ht
  cases h : pushMembership e m s.trainers with
  | some p =>
    obtain ⟨pre, t, post, hdec, hpre, hte, ht', hrest⟩ :=
      pushMembership_some_decomp e m s.trainers p.1 p.2 (by exact h)
    have htr : (upsertMembership s e m).1.trainers = p.1 := by
      simp only [upsertMembership, h]
    have hte' : t.email = e := by simpa [beq_iff_eq] using hte
    have htmem : t ∈ s.trainers := by
      rw [hdec]; exact List.mem_append_right _ (List.mem_cons_self _ _)
    have hany : t.gyms.any (fun g => g.gymId == gid) = false := by
      have := hnone' t htmem
      rw [hte] at this
      simpa using this
    have hfilt : t.gyms.filter (fun g => g.gymId == gid) = [] := by
      rw [List.filter_eq_nil_iff]
      intro g hg
      exact (List.any_eq_false.mp hany) g hg
    have hpost : ∀ x ∈ post, x.email ≠ e := by
      rw [hdec] at huniq
      have hp2 := (List.pairwise_append.mp huniq).2.1
      have := (List.pairwise_cons.mp hp2).1
      intro x hx
      have hne := this x hx
      rw [hte'] at hne
      exact fun hcontra => hne hcontra.symm
    have hpre' : ∀ x ∈ pre, x.email ≠ e := by
      intro x hx
      exact beq_eq_false_iff_ne.mp (hpre x hx)
    unfold countMemberships
    rw [htr, hrest, List.map_append, List.sum_append, List.map_cons, List.sum_cons]
    have h1 : (pre.map (fun t =>
        if t.email = e then (t.gyms.filter (fun g => g.gymId == gid)).length else 0)).sum = 0 := by
      apply List.sum_eq_zero
      intro x hx
      obtain ⟨a, ha, rfl⟩ := List.mem_map.mp hx
      rw [if_neg (hpre' a ha)]
    have h2 : (post.map (fun t =>
        if t.email = e then (t.gyms.filter (fun g => g.gymId == gid)).length else 0)).sum = 0 := by
      apply List.sum_eq_zero
      intro x hx
      obtain ⟨a, ha, rfl⟩ := List.mem_map.mp hx
      rw [if_neg (hpost a ha)]
    rw [h1, h2, ht']
    simp [hte', List.filter_append, hfilt, List.filter, hm]
  | none =>
    have htr : (upsertMembership s e m).1.trainers =
        s.trainers ++ [{ id := s.nextId, email := e, gyms := [m] }] := by
      simp only [upsertMembership, h]
    have hall : ∀ x ∈ s.trainers, x.email ≠ e := by
      intro x hx
      exact beq_eq_false_iff_ne.mp (pushMembership_none e m s.trainers h x hx)
    unfold countMemberships
    rw [htr, List.map_append, List.sum_append]
    have h1 : (s.trainers.map (fun t =>
        if t.email = e then (t.gyms.filter (fun g => g.gymId == gid)).length else 0)).sum = 0 := by
      apply List.sum_eq_zero
      intro x hx
      obtain ⟨a, ha, rfl⟩ := List.mem_map.mp hx
      rw [if_neg (hall a ha)]
    rw [h1]
    simp [List.filter, hm]

/-- C6: inviting (e, gid) once into a unique-email collection with no existing
membership for the pair succeeds; the resulting collection holds exactly one
membership for the pair, and inviting the same (e, gid) again yields no second
membership but a batch failure "Trainer already invited to this gym", leaving
the state unchanged. -/
theorem c6_duplicate_invite_conflict (env : InviteEnv) (now : Nat)
    (s : TrainerState) (gid : Nat) (gym : Gym) (e : String)
    (hgym : s.gyms.find? (fun g => g.id == gid) = some gym)
    (hblank : isBlankEmail e = false)
    (hnone : findTrainerWithMembership s.trainers e gid = none)
    (huniq : s.trainers.Pairwise (fun a b => a.email ≠ b.email))
    (hmail : env.emailOk e = true) :
    ∃ s1 san,
      inviteTrainers env now [e] gid s = .ok (s1, [san], []) ∧
      countMemberships s1 e gid = 1 ∧
      inviteTrainers env now [e] gid s1 =
        .ok (s1, [], [⟨e, "Trainer already invited to this gym"⟩]) := by
  have hne : ([e] : List String) ≠ [] := by simp
  have hstep1 : inviteStep env now gid gym.name (s, 0) e =
      (((upsertMembership s e
          { gymId := gid, gymName := gym.name, mpin := (env.gen 0).1,
            isInvitationAccepted := false,
            invitationTokens := [⟨(env.gen 0).2, now + TOKEN_TTL⟩] }).1, 1),
        [sanitizeTrainer (upsertMembership s e
          { gymId := gid, gymName := gym.name, mpin := (env.gen 0).1,
            isInvitationAccepted := false,
            invitationTokens := [⟨(env.gen 0).2, now + TOKEN_TTL⟩] }).2], []) := by
    simp only [inviteStep, hblank, hnone, hmail, Option.isSome_none, Bool.false_eq_true,
      if_false, if_true, Nat.zero_add]
  refine ⟨(upsertMembership s e
      { gymId := gid, gymName := gym.name, mpin := (env.gen 0).1,
        isInvitationAccepted := false,
        invitationTokens := [⟨(env.gen 0).2, now + TOKEN_TTL⟩] }).1,
    sanitizeTrainer (upsertMembership s e
      { gymId := gid, gymName := gym.name, mpin := (env.gen 0).1,
        isInvitationAccepted := false,
        invitationTokens := [⟨(env.gen 0).2, now + TOKEN_TTL⟩] }).2, ?_, ?_, ?_⟩
  · simp only [inviteTrainers, if_neg hne, hgym, inviteLoop, hstep1, List.nil_append,
      List.append_nil]
  · exact countMemberships_upsert s e gid _ (by simp) hnone huniq
  · obtain ⟨t1, ht1mem, ht1e, hmemm, _⟩ := upsertMembership_mem s e
      { gymId := gid, gymName := gym.name, mpin := (env.gen 0).1,
        isInvitationAccepted := false,
        invitationTokens := [⟨(env.gen 0).2, now + TOKEN_TTL⟩] }
    have hdup : (findTrainerWithMembership (upsertMembership s e
        { gymId := gid, gymName := gym.name, mpin := (env.gen 0).1,
          isInvitationAccepted := false,
          invitationTokens := [⟨(env.gen 0).2, now + TOKEN_TTL⟩] }).1.trainers e gid).isSome
        = true := by
      unfold findTrainerWithMembership
      refine List.find?_isSome.mpr ⟨t1, ht1mem, ?_⟩
      have hany : t1.gyms.any (fun g => g.gymId == gid) = true :=
        List.any_eq_true.mpr ⟨_, hmemm, by simp⟩
      simp [ht1e, hany]
    have hgym1 : (upsertMembership s e
        { gymId := gid, gymName := gym.name, mpin := (env.gen 0).1,
          isInvitationAccepted := false,
          invitationTokens := [⟨(env.gen 0).2, now + TOKEN_TTL⟩] }).1.gyms.find?
          (fun g => g.id == gid) = some gym := by
      rw [upsertMembership_gyms]; exact hgym
    have hstep2 : inviteStep env now gid gym.name ((upsertMembership s e
        { gymId := gid, gymName := gym.name, mpin := (env.gen 0).1,
          isInvitationAccepted := false,
          invitationTokens := [⟨(env.gen 0).2, now + TOKEN_TTL⟩] }).1, 0) e =
        (((upsertMembership s e
            { gymId := gid, gymName := gym.name, mpin := (env.gen 0).1,
              isInvitationAccepted := false,
              invitationTokens := [⟨(env.gen 0).2, now + TOKEN_TTL⟩] }).1, 0),
          [], [⟨e, "Trainer already invited to this gym"⟩]) := by
      simp only [inviteStep, hblank, hdup, Bool.false_eq_true, if_false, if_true]
    simp only [inviteTrainers, if_neg hne, hgym1, inviteLoop, hstep2, List.nil_append,
      List.append_nil]

/-- C6 witness: concrete run of the double invite against an empty collection. -/
theorem c6_witness :
    c6State.gyms.find? (fun g => g.id == 7) = some (⟨7, "GymC6"⟩ : Gym) ∧
    isBlankEmail "n@x.com" = false ∧
    findTrainerWithMembership c6State.trainers "n@x.com" 7 = none ∧
    c6State.trainers.Pairwise (fun a b => a.email ≠ b.email) ∧
    c6Env.emailOk "n@x.com" = true ∧
    ∃ s1 san,
      inviteTrainers c6Env 0 ["n@x.com"] 7 c6State = .ok (s1, [san], []) ∧
      countMemberships s1 "n@x.com" 7 = 1 ∧
      inviteTrainers c6Env 0 ["n@x.com"] 7 s1 =
        .ok (s1, [], [⟨"n@x.com", "Trainer already invited to this gym"⟩]) :=
  ⟨rfl, by decide, rfl, List.Pairwise.nil, rfl,
    c6_duplicate_invite_conflict c6Env 0 c6State 7 ⟨7, "GymC6"⟩ "n@x.com" rfl (by decide)
      rfl List.Pairwise.nil rfl⟩

/-- C7 witness: concrete failing-notifier run; the membership persists and the
second address is still processed. -/
theorem c7_witness :
    c7State.gyms.find? (fun g => g.id == 9) = some (⟨9, "GymC7"⟩ : Gym) ∧
    isBlankEmail "t@x.com" = false ∧
    findTrainerWithMembership c7State.trainers "t@x.com" 9 = none ∧
    c7Env.emailOk "t@x.com" = false ∧
    ∃ s1 t1,
      inviteStep c7Env 0 9 (Gym.name ⟨9, "GymC7"⟩) (c7State, 0) "t@x.com" =
        ((s1, 1), [], [⟨"t@x.com", "Failed to send invitation email"⟩]) ∧
      t1 ∈ s1.trainers ∧ (t1.email == "t@x.com") = true ∧
      { gymId := 9, gymName := Gym.name ⟨9, "GymC7"⟩, mpin := (c7Env.gen 0).1,
        isInvitationAccepted := false,
        invitationTokens := [⟨(c7Env.gen 0).2, 0 + TOKEN_TTL⟩] } ∈ t1.gyms ∧
      ∃ accR invR failR,
        inviteLoop c7Env 0 9 (Gym.name ⟨9, "GymC7"⟩) ["u@y.com"] (s1, 1) =
          (accR, invR, failR) ∧
        inviteTrainers c7Env 0 ["t@x.com", "u@y.com"] 9 c7State =
          .ok (accR.1, invR, ⟨"t@x.com", "Failed to send invitation email"⟩ :: failR) :=
  ⟨rfl, by decide, rfl, rfl,
    c7_notifier_failure_keeps_membership c7Env 0 c7State 9 ⟨9, "GymC7"⟩ "t@x.com" ["u@y.com"]
      rfl (by decide) rfl rfl⟩
